import Mathlib

/-!
Verification of the turn-state router and re-entrant dispatch loop of the
multi-agent stock & news assistant (`src/graph.py`, `src/agents/sql_agent.py`,
`src/agents/fallback_agent.py`).

The embedding models the Python code directly.  External collaborators
(the intent-classification LLM, the SQL-generating LLM, the database, the
news agent, the synthesis LLM) are nondeterministic and are modelled as
oracle parameters; everything else (regex helpers, truthiness, the router,
the decision function, the node wrappers, the composed LangGraph loop) is
translated function-by-function from the source.
-/

namespace StockAssistant

/-- Python `\w` word character for ASCII text: `[a-zA-Z0-9_]`. -/
def isWordChar (c : Char) : Bool := c.isAlphanum || c == '_'

/-- Python regex `\s` whitespace character (ASCII range). -/
def isSpaceCh (c : Char) : Bool :=
  c == ' ' || c == '\t' || c == '\n' || c == '\r' || c == '\x0b' || c == '\x0c'

/-- Python `str.strip()` on a character list: drop leading and trailing whitespace. -/
def pyStrip (cs : List Char) : List Char :=
  ((cs.dropWhile isSpaceCh).reverse.dropWhile isSpaceCh).reverse

/-- Lower-case the characters of a string (Python `str.lower()` for ASCII). -/
def lowerList (q : String) : List Char := q.data.map Char.toLower

/-- Python truthiness of an `Optional[str]` field: `None` and `""` are falsy. -/
def pyTruthyStrOpt : Option String → Bool
  | none => false
  | some s => !(s == "")

/-- Word boundary `\b` after a word character: the next character is absent or non-word. -/
def tailBoundary : List Char → Bool
  | [] => true
  | c :: _ => !isWordChar c

/-- Digit in `[1-9]`. -/
def isDigit19 (c : Char) : Bool := '1' ≤ c && c ≤ '9'

/-- Numeric value of a digit character. -/
def digitVal (c : Char) : Nat := c.toNat - 48

/-- Python `int(s)` for a nonempty digit string. -/
def pyInt (s : String) : Nat := s.data.foldl (fun a c => a * 10 + digitVal c) 0

/-- Python `f"{n:02d}"`: zero-pad to two digits. -/
def pad2 (n : Nat) : String := if n < 10 then "0" ++ toString n else toString n

/-- Separator character class (slash or dash) of the US-date regex in `graph.py`. -/
def sepChar (c : Char) : Bool := c == '/' || c == '-'

/-- Month alternatives `(0?[1-9]|1[0-2])` of `_US_DATE_RE`, in the backtracking
order of the Python regex engine: each entry is (value, remaining input). -/
def monthCands : List Char → List (Nat × List Char)
  | '0' :: c :: rest => if isDigit19 c then [(digitVal c, rest)] else []
  | c :: rest =>
    (if isDigit19 c then [(digitVal c, rest)] else []) ++
    (match rest with
     | d :: rest2 =>
       if c == '1' && (d == '0' || d == '1' || d == '2') then
         [(10 + digitVal d, rest2)]
       else []
     | [] => [])
  | [] => []

/-- Day alternatives `(0?[1-9]|[12][0-9]|3[01])` of `_US_DATE_RE`, in
backtracking order. -/
def dayCands : List Char → List (Nat × List Char)
  | '0' :: c :: rest => if isDigit19 c then [(digitVal c, rest)] else []
  | c :: rest =>
    (if isDigit19 c then [(digitVal c, rest)] else []) ++
    (match rest with
     | d :: rest2 =>
       (if (c == '1' || c == '2') && d.isDigit then
          [(10 * digitVal c + digitVal d, rest2)]
        else []) ++
       (if c == '3' && (d == '0' || d == '1') then [(30 + digitVal d, rest2)] else [])
     | [] => [])
  | [] => []

/-- Year part `(20\d{2})` of `_US_DATE_RE`: exactly `20` followed by two digits;
returns the captured four characters and the remaining input. -/
def yearParse : List Char → Option (List Char × List Char)
  | '2' :: '0' :: a :: b :: rest =>
    if a.isDigit && b.isDigit then some (['2', '0', a, b], rest) else none
  | _ => none

/-- Attempt to match `_US_DATE_RE` (without the leading `\b`, which the caller
checks) at the head of the input.  On success returns the replacement text
produced by `_fix` in `graph.py` (`f"{yr}-{int(mon):02d}-{int(day):02d}"`)
together with the input remaining after the match. -/
def tryDateMatch (cs : List Char) : Option (List Char × List Char) :=
  (monthCands cs).findSome? fun mc =>
    match mc.2 with
    | s1 :: cs2 =>
      if sepChar s1 then
        (dayCands cs2).findSome? fun dc =>
          match dc.2 with
          | s2 :: cs4 =>
            if sepChar s2 then
              match yearParse cs4 with
              | some (ystr, rest) =>
                if tailBoundary rest then
                  some (ystr ++ ('-' :: (pad2 mc.1).data) ++ ('-' :: (pad2 dc.1).data), rest)
                else none
              | none => none
            else none
          | [] => none
      else none
    | [] => none

/-- Left-to-right, non-overlapping substitution scan of `_US_DATE_RE.sub(_fix, ·)`.
`prevWord` records whether the previous character of the original text is a
word character (for the leading `\b`); `fuel` bounds the recursion and is
initialised to the length of the text, which every call preserves as an upper
bound on the remaining input because each step consumes at least one character. -/
def subScanAux (prevWord : Bool) (cs : List Char) (fuel : Nat) : List Char :=
  match fuel, cs with
  | 0, cs => cs
  | _, [] => []
  | fuel + 1, c :: rest =>
    if !prevWord then
      match tryDateMatch (c :: rest) with
      | some (repl, rest2) => repl ++ subScanAux true rest2 fuel
      | none => c :: subScanAux (isWordChar c) rest fuel
    else c :: subScanAux (isWordChar c) rest fuel

/-- Does `_US_DATE_RE` match anywhere in the text (with its word boundaries)? -/
def hasUSDateAux (prevWord : Bool) : List Char → Bool
  | [] => false
  | c :: rest =>
    (!prevWord && (tryDateMatch (c :: rest)).isSome) || hasUSDateAux (isWordChar c) rest

/-- `graph.py::_normalize_dates`: rewrite `M/D/20YY` (slash or dash separators)
occurrences to ISO `YYYY-MM-DD`. -/
def _normalize_dates (text : String) : String :=
  ⟨subScanAux false text.data text.data.length⟩

/-- Any word-boundary-respecting occurrence of `_US_DATE_RE` in the text. -/
def hasUSDate (text : String) : Bool := hasUSDateAux false text.data

/-- First match of `re.search(r"\d{4}-\d{2}-\d{2}", ·)` at the head of the input. -/
def isoMatchAt : List Char → Option (List Char)
  | a :: b :: c :: d :: '-' :: e :: f :: '-' :: g :: h :: _ =>
    if a.isDigit && b.isDigit && c.isDigit && d.isDigit &&
       e.isDigit && f.isDigit && g.isDigit && h.isDigit then
      some [a, b, c, d, '-', e, f, '-', g, h]
    else none
  | _ => none

/-- Leftmost match of `re.search(r"\d{4}-\d{2}-\d{2}", ·)` over the whole input. -/
def findFirstIsoAux : List Char → Option (List Char)
  | [] => none
  | c :: rest =>
    match isoMatchAt (c :: rest) with
    | some m => some m
    | none => findFirstIsoAux rest

/-- `re.search(r"\d{4}-\d{2}-\d{2}", text)`, returning the matched text. -/
def findFirstIso (text : String) : Option String :=
  (findFirstIsoAux text.data).map fun m => ⟨m⟩

/-- Take exactly `n` digits from the head of the input. -/
def digitsTake : Nat → List Char → Option (List Char × List Char)
  | 0, cs => some ([], cs)
  | n + 1, c :: rest =>
    if c.isDigit then (digitsTake n rest).map fun p => (c :: p.1, p.2) else none
  | _ + 1, [] => none

/-- Match `(\d{1,2})/(\d{1,2})/(\d{2,4})` at the head of the input, following
the greedy backtracking order of the Python engine (longer digit groups
first).  Returns the three captured groups. -/
def slashMatchAt (cs : List Char) : Option (String × String × String) :=
  [2, 1].findSome? fun mlen =>
    match digitsTake mlen cs with
    | some (mg, '/' :: cs2) =>
      [2, 1].findSome? fun dlen =>
        match digitsTake dlen cs2 with
        | some (dg, '/' :: cs4) =>
          [4, 3, 2].findSome? fun ylen =>
            (digitsTake ylen cs4).map fun yg => (⟨mg⟩, ⟨dg⟩, ⟨yg.1⟩)
        | _ => none
    | _ => none

/-- Leftmost match of `re.search(r"(\d{1,2})/(\d{1,2})/(\d{2,4})", ·)`. -/
def findFirstSlashAux : List Char → Option (String × String × String)
  | [] => none
  | c :: rest =>
    match slashMatchAt (c :: rest) with
    | some g => some g
    | none => findFirstSlashAux rest

/-- `re.search(r"(\d{1,2})/(\d{1,2})/(\d{2,4})", text)`, returning the groups. -/
def findFirstSlash (text : String) : Option (String × String × String) :=
  findFirstSlashAux text.data

/-- Maximal leading run of ASCII letters, together with the remaining input. -/
def letterRun : List Char → List Char × List Char
  | [] => ([], [])
  | c :: rest =>
    if c.isAlpha then
      let p := letterRun rest
      (c :: p.1, p.2)
    else ([], c :: rest)

/-- `re.search(r"\$([A-Za-z]{1,5})\b", q)` from `graph.py::_extract_ticker`:
scan for a dollar sign followed by one to five letters ending at a word
boundary; return the captured letters of the first match. -/
def dollarSearch : List Char → Option (List Char)
  | [] => none
  | '$' :: rest =>
    let p := letterRun rest
    if 1 ≤ p.1.length && p.1.length ≤ 5 && tailBoundary p.2 then some p.1
    else dollarSearch rest
  | _ :: rest => dollarSearch rest

/-- `re.findall(r"\$?[A-Za-z]{1,5}", q.lower())`: tokenize into matches of the
ticker regex (an optional dollar sign plus up to five letters, greedy,
non-overlapping, left to right).  `fuel` starts at the input length; every
step consumes at least one character. -/
def tickerTokensAux : Nat → List Char → List (List Char)
  | 0, _ => []
  | _, [] => []
  | fuel + 1, '$' :: rest =>
    let run := (letterRun rest).1
    if run.isEmpty then tickerTokensAux fuel rest
    else ('$' :: run.take 5) :: tickerTokensAux fuel (rest.drop (min 5 run.length))
  | fuel + 1, c :: rest =>
    if c.isAlpha then
      let run := (letterRun (c :: rest)).1
      run.take 5 :: tickerTokensAux fuel ((c :: rest).drop (min 5 run.length))
    else tickerTokensAux fuel rest

/-- All matches of `_TICKER_RE` in the lowered query. -/
def tickerTokens (cs : List Char) : List (List Char) := tickerTokensAux cs.length cs

/-- The static alias map `TICKER_MAP` of `graph.py`. -/
def TICKER_MAP (w : String) : Option String :=
  if w == "aapl" then some "AAPL"
  else if w == "apple" then some "AAPL"
  else if w == "msft" then some "MSFT"
  else if w == "microsoft" then some "MSFT"
  else if w == "googl" then some "GOOGL"
  else if w == "google" then some "GOOGL"
  else if w == "alphabet" then some "GOOGL"
  else if w == "tsla" then some "TSLA"
  else if w == "tesla" then some "TSLA"
  else if w == "amzn" then some "AMZN"
  else if w == "amazon" then some "AMZN"
  else none

/-- Is this character an ASCII uppercase letter? -/
def isUpperCh (c : Char) : Bool := 'A' ≤ c && c ≤ 'Z'

/-- Maximal leading run of uppercase letters, with the remaining input. -/
def upperRun : List Char → List Char × List Char
  | [] => ([], [])
  | c :: rest =>
    if isUpperCh c then
      let p := upperRun rest
      (c :: p.1, p.2)
    else ([], c :: rest)

/-- Match `[A-Z]{1,5}\b` at the head of the input (the leading `\b` is checked
by the caller): succeeds when the maximal uppercase run here has length one to
five and ends at a word boundary. -/
def upperMatchAt (cs : List Char) : Option (List Char) :=
  let p := upperRun cs
  if 1 ≤ p.1.length && p.1.length ≤ 5 && tailBoundary p.2 then some p.1 else none

/-- Leftmost match of `re.findall(r"\b([A-Z]{1,5})\b", q)` (only the first
match is consumed by `_extract_ticker`). -/
def firstUpperTokenAux (prevWord : Bool) : List Char → Option (List Char)
  | [] => none
  | c :: rest =>
    if !prevWord && (upperMatchAt (c :: rest)).isSome then upperMatchAt (c :: rest)
    else firstUpperTokenAux (isWordChar c) rest

/-- `graph.py::_extract_ticker`: explicit dollar-sigil ticker, else alias-map
token, else first bare 1-5 letter uppercase token, else the empty string. -/
def _extract_ticker (q : String) : String :=
  match dollarSearch q.data with
  | some run => ⟨run.map Char.toUpper⟩
  | none =>
    match (tickerTokens (lowerList q)).findSome? (fun w => TICKER_MAP ⟨w⟩) with
    | some sym => sym
    | none =>
      match firstUpperTokenAux false q.data with
      | some run => ⟨run⟩
      | none => ""

/-- Match one keyword of a `\b(...|...)\b` alternation at the head of the
input: the keyword must be a literal prefix here and end at a word boundary. -/
def keywordAt (cs kw : List Char) : Bool :=
  kw.isPrefixOf cs && tailBoundary (cs.drop kw.length)

/-- Does the keyword occur anywhere in the text with word boundaries on both
sides?  (Keywords start and end with word characters.) -/
def containsKeyword (kw : List Char) : Bool → List Char → Bool
  | _, [] => false
  | prevWord, c :: rest =>
    (!prevWord && keywordAt (c :: rest) kw) || containsKeyword kw (isWordChar c) rest

/-- The SQL-need keyword vocabulary of `router_node`
(`\b(price|open|close|volume|high|low|financial data|stock data)\b`). -/
def SQL_KEYWORDS : List (List Char) :=
  ["price".data, "open".data, "close".data, "volume".data, "high".data,
   "low".data, "financial data".data, "stock data".data]

/-- The news-need keyword vocabulary of `router_node`
(`\b(news|headline|article|update|latest updates|related news)\b`). -/
def NEWS_KEYWORDS : List (List Char) :=
  ["news".data, "headline".data, "article".data, "update".data,
   "latest updates".data, "related news".data]

/-- `need_sql_heuristic` of `router_node`: regex search over the lowered query. -/
def needSqlHeuristic (qLow : List Char) : Bool :=
  SQL_KEYWORDS.any fun kw => containsKeyword kw false qLow

/-- `need_news_heuristic` of `router_node`: regex search over the lowered query. -/
def needNewsHeuristic (qLow : List Char) : Bool :=
  NEWS_KEYWORDS.any fun kw => containsKeyword kw false qLow

/-- A chat message (LangChain `HumanMessage` / `AIMessage`). -/
inductive ChatMsg
  | human (content : String)
  | ai (content : String)
deriving DecidableEq, Repr

/-- Length of the leading whitespace run. -/
def wsCount : List Char → Nat
  | [] => 0
  | c :: rest => if isSpaceCh c then wsCount rest + 1 else 0

/-- Does the second list start with the first? -/
def startsWithL (pre cs : List Char) : Bool := pre.isPrefixOf cs

/-- Try to match `_CODE_BLOCK_RE` of `sql_agent.py`
(three backticks, optional `sql`, lazy DOTALL body, three backticks)
starting exactly here, following the Python engine's backtracking order:
the optional `sql` is consumed when possible, the surrounding whitespace
runs are greedy, and the captured body is lazy (shortest first).
Returns the captured group. -/
def codeBlockAt (cs : List Char) : Option (List Char) :=
  if startsWithL "```".data cs then
    let rest0 := cs.drop 3
    let options := (if startsWithL "sql".data rest0 then [rest0.drop 3] else []) ++ [rest0]
    options.findSome? fun rest1 =>
      let w0 := wsCount rest1
      ((List.range (w0 + 1)).map fun i => w0 - i).findSome? fun w =>
        let rest2 := rest1.drop w
        (List.range (rest2.length + 1)).findSome? fun g =>
          let rest3 := rest2.drop g
          let t0 := wsCount rest3
          (((List.range (t0 + 1)).map fun i => t0 - i).findSome? fun t =>
            if startsWithL "```".data (rest3.drop t) then some (rest2.take g) else none)
  else none

/-- Leftmost match of `_CODE_BLOCK_RE.search`. -/
def searchCodeBlock : List Char → Option (List Char)
  | [] => none
  | c :: rest =>
    match codeBlockAt (c :: rest) with
    | some b => some b
    | none => searchCodeBlock rest

/-- Python `str.strip("\x60")`: drop leading and trailing backticks. -/
def stripBackticks (cs : List Char) : List Char :=
  ((cs.dropWhile (· == '`')).reverse.dropWhile (· == '`')).reverse

/-- Python `str.replace("sql", "")`: remove every (left-to-right,
non-overlapping) occurrence of `sql`. -/
def removeSql : List Char → List Char
  | 's' :: 'q' :: 'l' :: rest => removeSql rest
  | c :: rest => c :: removeSql rest
  | [] => []

/-- `sql_agent.py::_clean_sql`: extract the SQL from a fenced code block, or
fall back to stripping backticks and removing `sql`. -/
def _clean_sql (text : String) : String :=
  match searchCodeBlock text.data with
  | some body => ⟨pyStrip body⟩
  | none => ⟨pyStrip (removeSql (stripBackticks text.data))⟩

/-- Does the needle occur as a contiguous substring of the haystack
(Python `needle in hay`)? -/
def containsSub : List Char → List Char → Bool
  | [], needle => needle.isEmpty
  | c :: rest, needle => needle.isPrefixOf (c :: rest) || containsSub rest needle

/-- `sql_agent.py::_validate`: reject SQL that does not reference `stock_data`
or that mentions a banned news-related word; `some msg` is the `ValueError`
message raised, `none` means the query is accepted. -/
def _validate (sql : String) : Option String :=
  let lowered := sql.data.map Char.toLower
  if !containsSub lowered "stock_data".data then
    some "query must reference only stock_data"
  else if containsSub lowered "news".data || containsSub lowered "headline".data ||
          containsSub lowered "url".data then
    some "query mentions invalid column"
  else none

/-- The apology returned by `run_sql_agent` whenever its internal try block
fails (LLM failure, local validation rejection, or database error). -/
def DB_ERROR_APOLOGY : String := "Sorry, I couldn\x27t answer that due to a database error."

/-- Result of `run_sql_agent`.  `dbExecuted` instruments whether
`sql_agent_chain.db.run` was reached (the claim under study distinguishes
local rejection from execution); the remaining fields are the entries of the
returned state dict. -/
structure SqlRunResult where
  output : String
  current_date : String
  chat_history : List ChatMsg
  dbExecuted : Bool
deriving Repr

/-- `sql_agent.py::run_sql_agent`.  `llmResp` is the SQL-generating LLM's
response (`none` models `llm.invoke` raising); `dbRun` is the database
collaborator (`none` models `db.run` raising).  The function never raises:
every collaborator failure is caught internally and converted into the
fixed apology string. -/
def run_sql_agent (inputText stateDate : String) (history : List ChatMsg)
    (llmResp : Option String) (dbRun : String → Option String) : SqlRunResult :=
  let question : String := ⟨pyStrip inputText.data⟩
  let current_date : String :=
    match findFirstIso question with
    | some iso => iso
    | none =>
      match findFirstSlash question with
      | some (m, d, y) =>
        let y := if y.length == 2 then "20" ++ y else y
        y ++ "-" ++ pad2 (pyInt m) ++ "-" ++ pad2 (pyInt d)
      | none => stateDate
  let attempt : String × Bool :=
    match llmResp with
    | none => (DB_ERROR_APOLOGY, false)
    | some resp =>
      let cleaned_sql := _clean_sql resp
      match _validate cleaned_sql with
      | some _ => (DB_ERROR_APOLOGY, false)
      | none =>
        match dbRun cleaned_sql with
        | none => (DB_ERROR_APOLOGY, true)
        | some raw => (raw, true)
  let answer_text := if attempt.1 == "" then "I couldn\x27t find an answer." else attempt.1
  { output := answer_text
    current_date := current_date
    chat_history := history ++ [ChatMsg.human question, ChatMsg.ai answer_text]
    dbExecuted := attempt.2 }

/-- The LangGraph state dict `AgentState` of `graph.py`.  Optional fields are
Python `Optional[str]`; note that `last_ticker` may also hold the empty
string, which every reader of the field treats like `None` (truthiness). -/
structure AgentState where
  query : String
  need_sql : Bool
  need_news : Bool
  sql_done : Bool
  news_done : Bool
  sql_result : Option String
  news_result : Option String
  answer : Option String
  error : Option String
  chat_history : List ChatMsg
  last_ticker : Option String
  last_date : Option String
  last_query : Option String
deriving DecidableEq, Repr

/-- `fallback_agent.py::run_fallback_agent` output text: a fixed redirect
string, independent of the input. -/
def FALLBACK_REDIRECT : String :=
  "I’m not sure I can help with that. Try asking about Tesla stock prices or Tesla-related news."

/-- `fallback_agent.py::run_fallback_agent`: always succeeds and returns the
fixed redirect string. -/
def run_fallback_agent (_input : String) : String := FALLBACK_REDIRECT

/-- `graph.py::router_node`.  `llmFlags` is the intent-classification
collaborator's parsed output (`none` models an exception or unparseable
response, in which case both LLM flags contribute `False`). -/
def router_node (llmFlags : Option (Bool × Bool)) (s : AgentState) : AgentState :=
  let is_new_query : Prop := s.last_query ≠ some s.query
  let new_state : AgentState :=
    { query := s.query
      chat_history := s.chat_history
      last_ticker := s.last_ticker
      last_date := s.last_date
      last_query := some s.query
      need_sql := s.need_sql
      need_news := s.need_news
      sql_done := s.sql_done
      news_done := s.news_done
      sql_result := s.sql_result
      news_result := s.news_result
      answer := none
      error := none }
  let new_state :=
    if is_new_query then
      { new_state with
          need_sql := false
          need_news := false
          sql_done := false
          news_done := false
          sql_result := none
          news_result := none
          error := none }
    else new_state
  let current_ticker : Option String :=
    let t := _extract_ticker new_state.query
    if t == "" then new_state.last_ticker else some t
  let new_state := { new_state with last_ticker := current_ticker }
  let q_low := lowerList new_state.query
  let need_sql_heuristic := needSqlHeuristic q_low
  let need_news_heuristic := needNewsHeuristic q_low
  let llm := llmFlags.getD (false, false)
  { new_state with
      need_sql := new_state.need_sql || need_sql_heuristic || llm.1
      need_news := new_state.need_news || need_news_heuristic || llm.2 }

/-- The four possible values of the conditional edge `decide_next`. -/
inductive Route
  | agent_sql
  | agent_news
  | agent_fallback
  | synth
deriving DecidableEq, Repr

/-- `graph.py::decide_next`, including its redundant final guard. -/
def decide_next (s : AgentState) : Route :=
  if pyTruthyStrOpt s.error then .synth
  else if s.need_sql && !s.sql_done then .agent_sql
  else if s.need_news && !s.news_done then .agent_news
  else if !(s.need_sql || s.need_news) then .agent_fallback
  else if (s.sql_done || !s.need_sql) && (s.news_done || !s.need_news) then .synth
  else .synth

/-- The Router decision function as §4.3 of the spec words it: error, then
pending SQL, then pending NEWS, then no-needs fallback, else SYNTH. -/
def decideSpec (s : AgentState) : Route :=
  if pyTruthyStrOpt s.error then .synth
  else if s.need_sql && !s.sql_done then .agent_sql
  else if s.need_news && !s.news_done then .agent_news
  else if !s.need_sql && !s.need_news then .agent_fallback
  else .synth

/-- Outcome of invoking a specialist agent function from a node's try block:
it either returns an output string or raises with a message. -/
inductive AgentOutcome
  | ok (output : String)
  | exn (msg : String)
deriving DecidableEq, Repr

/-- `graph.py::agent_sql_node`: on success records `sql_result` and sets
`sql_done`; an exception is caught and recorded in `error`.  `outcome`
abstracts the call `run_sql_agent(payload)["output"]` together with any
exception escaping the try block. -/
def agent_sql_node (outcome : AgentOutcome) (s : AgentState) : AgentState :=
  match outcome with
  | .ok output => { s with sql_result := some output, sql_done := true }
  | .exn e => { s with error := some ("SQL agent error: " ++ e) }

/-- `graph.py::agent_news_node`: a falsy `last_ticker` reports a
ticker-not-found error without calling the collaborator; otherwise the
collaborator outcome is recorded like the SQL node. -/
def agent_news_node (outcome : AgentOutcome) (s : AgentState) : AgentState :=
  if !pyTruthyStrOpt s.last_ticker then
    { s with error := some "News agent error: Could not identify a ticker." }
  else
    match outcome with
    | .ok output => { s with news_result := some output, news_done := true }
    | .exn e => { s with error := some ("News agent error: " ++ e) }

/-- `graph.py::agent_fallback_node`: `run_fallback_agent` cannot raise, so the
node always records the redirect as `sql_result` and marks both done flags. -/
def agent_fallback_node (s : AgentState) : AgentState :=
  { s with
      sql_result := some (run_fallback_agent s.query)
      sql_done := true
      news_done := true }

/-- `graph.py::synth_node`.  `llmText` is the synthesis collaborator's raw
reply (used only when `error` is falsy). -/
def synth_node (llmText : String) (s : AgentState) : AgentState :=
  let answer :=
    if pyTruthyStrOpt s.error then "Sorry – " ++ s.error.getD ""
    else ⟨pyStrip llmText.data⟩
  let chat := s.chat_history ++ [ChatMsg.human s.query, ChatMsg.ai answer]
  let last_date :=
    match findFirstIso (_normalize_dates s.query) with
    | some d => some d
    | none => s.last_date
  { s with
      answer := some answer
      chat_history := chat
      last_date := last_date
      sql_done := true
      news_done := true }

/-- A vertex of the compiled LangGraph workflow (`END` is `done`). -/
inductive Node
  | router
  | agentSql
  | agentNews
  | agentFallback
  | synth
  | done
deriving DecidableEq, Repr

/-- The target of each conditional edge out of the router. -/
def routeToNode : Route → Node
  | .agent_sql => .agentSql
  | .agent_news => .agentNews
  | .agent_fallback => .agentFallback
  | .synth => .synth

/-- Collaborator outcomes consumed by one execution step of the graph. -/
structure StepInputs where
  routerLLM : Option (Bool × Bool)
  sqlOut : AgentOutcome
  newsOut : AgentOutcome
  synthLLM : String

/-- One step of the compiled workflow: execute the current node and follow
its outgoing edge (`router` follows the conditional edge `decide_next`
evaluated on the router's own output; every specialist returns to `router`;
`synth` goes to `END`). -/
def step (inp : StepInputs) : Node × AgentState → Node × AgentState
  | (.router, s) =>
    let s2 := router_node inp.routerLLM s
    (routeToNode (decide_next s2), s2)
  | (.agentSql, s) => (.router, agent_sql_node inp.sqlOut s)
  | (.agentNews, s) => (.router, agent_news_node inp.newsOut s)
  | (.agentFallback, s) => (.router, agent_fallback_node s)
  | (.synth, s) => (.done, synth_node inp.synthLLM s)
  | (.done, s) => (.done, s)

/-- Run `k` steps of the workflow; `inps i` supplies the collaborator
outcomes consumed by step `i`. -/
def run (inps : Nat → StepInputs) : Nat → Node × AgentState → Node × AgentState
  | 0, p => p
  | k + 1, p => step (inps k) (run inps k p)

/-- The initial state built by `graph.py::run_query_once` for a question. -/
def initState (question : String) : AgentState :=
  { query := question
    chat_history := []
    last_ticker := none
    last_date := none
    last_query := none
    need_sql := false
    need_news := false
    sql_done := false
    news_done := false
    sql_result := none
    news_result := none
    answer := none
    error := none }

/-- Constant collaborator outcomes in which the SQL specialist always raises
and the classification collaborator is unavailable (heuristics-only flags). -/
def errInps : Nat → StepInputs := fun _ =>
  { routerLLM := none
    sqlOut := AgentOutcome.exn "boom"
    newsOut := AgentOutcome.ok ""
    synthLLM := "" }

/-- Constant collaborator outcomes in which every specialist succeeds and the
classification collaborator is unavailable (heuristics-only flags). -/
def okInps : Nat → StepInputs := fun _ =>
  { routerLLM := none
    sqlOut := AgentOutcome.ok "ok"
    newsOut := AgentOutcome.ok "ok"
    synthLLM := "fine" }

/-- A mid-turn state: the question was already classified (`need_sql` set and
satisfied) and `last_query` was recorded by a previous router invocation. -/
def midTurnState : AgentState :=
  { initState "tell me more" with
      last_query := some "tell me more"
      need_sql := true
      sql_done := true }

/-- A mid-turn state of a price question about to dispatch (or having just
dispatched) the SQL specialist. -/
def sqlTurnState : AgentState :=
  { initState "close price of AAPL on 2025-06-11" with
      last_query := some "close price of AAPL on 2025-06-11"
      last_ticker := some "AAPL"
      need_sql := true }

/-- C5: the Router decision `decide_next` is a pure function of the state and
implements exactly the spec's precedence: error first, then pending SQL, then
pending NEWS, then fallback when neither flag is needed, else SYNTH. -/
theorem decide_next_matches_spec_precedence (s : AgentState) :
    decide_next s = decideSpec s := by
  obtain ⟨q, ns, nn, sd, nd, sr, nr, a, e, ch, lt, ld, lq⟩ := s
  simp only [decide_next, decideSpec]
  cases h : pyTruthyStrOpt e <;> cases ns <;> cases nn <;> cases sd <;> cases nd <;> simp [h]

/-- C6: every state returned by the router node has `error = None` and
`answer = None`, for every incoming state and every classification outcome —
the router unconditionally resets both fields. -/
theorem router_resets_error_and_answer (flags : Option (Bool × Bool)) (s : AgentState) :
    (router_node flags s).error = none ∧ (router_node flags s).answer = none := by
  unfold router_node
  by_cases h : s.last_query ≠ some s.query <;> simp [h]

/-- C7 (counterexample): on a same-query router re-entry the flags are not
carried forward untouched — classification runs on every invocation, and a
fresh collaborator output can turn `need_news` on mid-turn. -/
theorem classification_runs_on_reentry :
    midTurnState.last_query = some midTurnState.query ∧
    midTurnState.need_news = false ∧
    (router_node (some (false, true)) midTurnState).need_news = true := by
  refine ⟨rfl, rfl, rfl⟩

/-- C7 (amended): on a same-query router re-entry the incoming flags are
OR-combined with a fresh classification (heuristics plus collaborator), so
carried-forward flags are never cleared, but classification does run on every
Router invocation and can add a requirement mid-turn. -/
theorem router_reentry_flags_or_accumulate (flags : Option (Bool × Bool)) (t : AgentState)
    (h : t.last_query = some t.query) :
    (router_node flags t).need_sql
      = (t.need_sql || needSqlHeuristic (lowerList t.query) || (flags.getD (false, false)).1) ∧
    (router_node flags t).need_news
      = (t.need_news || needNewsHeuristic (lowerList t.query) || (flags.getD (false, false)).2) := by
  unfold router_node
  simp [h]

/-- Witness for `router_reentry_flags_or_accumulate` at a concrete re-entrant
state and collaborator output. -/
theorem router_reentry_flags_or_accumulate_witness :
    (router_node (some (false, true)) midTurnState).need_news
      = (midTurnState.need_news || needNewsHeuristic (lowerList midTurnState.query) || true) :=
  (router_reentry_flags_or_accumulate (some (false, true)) midTurnState rfl).2

/-- C8: a new question (query differs from the stored `last_query`) clears
all seven turn-scoped fields before classification runs — the resulting flags
depend only on the fresh classification — and the reset happens only on that
first router invocation: once `last_query` equals the query, subsequent
router invocations preserve results and done flags. -/
theorem new_question_resets_turn_state (flags : Option (Bool × Bool)) (s : AgentState)
    (h : s.last_query ≠ some s.query) :
    (router_node flags s).sql_result = none ∧
    (router_node flags s).news_result = none ∧
    (router_node flags s).error = none ∧
    (router_node flags s).sql_done = false ∧
    (router_node flags s).news_done = false ∧
    (router_node flags s).need_sql
      = (needSqlHeuristic (lowerList s.query) || (flags.getD (false, false)).1) ∧
    (router_node flags s).need_news
      = (needNewsHeuristic (lowerList s.query) || (flags.getD (false, false)).2) ∧
    (router_node flags s).last_query = some (router_node flags s).query ∧
    (∀ (flags2 : Option (Bool × Bool)) (t : AgentState), t.last_query = some t.query →
      (router_node flags2 t).sql_result = t.sql_result ∧
      (router_node flags2 t).news_result = t.news_result ∧
      (router_node flags2 t).sql_done = t.sql_done ∧
      (router_node flags2 t).news_done = t.news_done) := by
  refine ⟨?_, ?_, ?_, ?_, ?_, ?_, ?_, ?_, ?_⟩
  all_goals first
    | (intro flags2 t h2; unfold router_node; simp [h2])
    | (unfold router_node; simp [h])

/-- Witness for `new_question_resets_turn_state`: a fresh turn for a news
question on a blank memory. -/
theorem new_question_resets_turn_state_witness :
    (router_node none (initState "any news on AAPL")).sql_result = none ∧
    (router_node none (initState "any news on AAPL")).need_news
      = (needNewsHeuristic (lowerList "any news on AAPL") || false) := by
  have h := new_question_resets_turn_state none (initState "any news on AAPL") (by decide)
  exact ⟨h.1, h.2.2.2.2.2.2.1⟩

/-- C1 (code bug): after the SQL specialist fails (step 1) the state carries a
non-empty `error`, but control returns through the router node, which clears
`error` unconditionally, so the very next Router decision dispatches the SQL
specialist again instead of SYNTH. -/
theorem error_cleared_then_specialist_redispatched :
    (run errInps 2 (Node.router, initState "price of AAPL today")).2.error
      = some "SQL agent error: boom" ∧
    (run errInps 3 (Node.router, initState "price of AAPL today")).1 = Node.agentSql ∧
    (run errInps 3 (Node.router, initState "price of AAPL today")).2.error = none := by
  refine ⟨rfl, rfl, rfl⟩

/-- C2 (code bug): within one turn (the query and stored `last_query` never
change), the SQL specialist node is executed at step 1 and again at step 3
after its first run failed — a specialist is not dispatched at most once. -/
theorem sql_specialist_dispatched_twice_in_one_turn :
    (run errInps 1 (Node.router, initState "price of AAPL today")).1 = Node.agentSql ∧
    (run errInps 3 (Node.router, initState "price of AAPL today")).1 = Node.agentSql ∧
    (run errInps 3 (Node.router, initState "price of AAPL today")).2.query
      = "price of AAPL today" ∧
    (run errInps 3 (Node.router, initState "price of AAPL today")).2.last_query
      = some "price of AAPL today" := by
  refine ⟨rfl, rfl, rfl, rfl⟩

/-- C3 (code bug): on an ambiguous question (both flags false) the loop
dispatches the fallback specialist at steps 1, 3 and 5 — three dispatches,
exceeding the claimed bound of 2 — and still has produced no answer: the
done flags set by the fallback never make `decide_next` yield SYNTH because
the no-needs branch is checked first. -/
theorem fallback_loop_exceeds_dispatch_bound :
    (run okInps 1 (Node.router, initState "hello there")).1 = Node.agentFallback ∧
    (run okInps 3 (Node.router, initState "hello there")).1 = Node.agentFallback ∧
    (run okInps 5 (Node.router, initState "hello there")).1 = Node.agentFallback ∧
    (run okInps 5 (Node.router, initState "hello there")).2.answer = none := by
  refine ⟨rfl, rfl, rfl, rfl⟩

/-- C4 (code bug): the fallback adapter does return the fixed redirect string
and set both done flags with both need flags false, but the very next Router
decision is FALLBACK again, not SYNTH — the fallback is not terminal. -/
theorem fallback_not_terminal :
    run_fallback_agent "hello there" = FALLBACK_REDIRECT ∧
    (run okInps 2 (Node.router, initState "hello there")).2.sql_done = true ∧
    (run okInps 2 (Node.router, initState "hello there")).2.news_done = true ∧
    (run okInps 2 (Node.router, initState "hello there")).2.need_sql = false ∧
    (run okInps 2 (Node.router, initState "hello there")).2.need_news = false ∧
    (run okInps 2 (Node.router, initState "hello there")).2.sql_result
      = some FALLBACK_REDIRECT ∧
    (run okInps 3 (Node.router, initState "hello there")).1 = Node.agentFallback := by
  refine ⟨rfl, rfl, rfl, rfl, rfl, rfl, rfl⟩

/-- C9 (counterexample): a generated query referencing a disallowed table is
rejected locally (the database is never executed), but `state.error` is NOT
set — the adapter catches its own `ValueError` and returns the apology as a
normal output, so the node records it as `sql_result` with `error` still
`None`. -/
theorem rejected_sql_does_not_set_error :
    _validate (_clean_sql "SELECT * FROM users;")
      = some "query must reference only stock_data" ∧
    (run_sql_agent "close price of AAPL on 2025-06-11" "" []
        (some "SELECT * FROM users;") (fun _ => some "[]")).dbExecuted = false ∧
    (run_sql_agent "close price of AAPL on 2025-06-11" "" []
        (some "SELECT * FROM users;") (fun _ => some "[]")).output = DB_ERROR_APOLOGY ∧
    (agent_sql_node
        (AgentOutcome.ok (run_sql_agent "close price of AAPL on 2025-06-11" "" []
          (some "SELECT * FROM users;") (fun _ => some "[]")).output)
        sqlTurnState).error = none := by
  refine ⟨rfl, rfl, rfl, rfl⟩

/-- C9 (amended): whenever the cleaned generated SQL fails `_validate`, the
adapter rejects it locally before execution (the database collaborator is
never called) and returns the fixed generic apology, which does not echo the
query; the node then records the apology as `sql_result` with `sql_done`
set, leaves `error` unchanged (`None`), and the next Router decision for a
pure-SQL turn is SYNTH. -/
theorem sql_rejection_is_local_and_degrades_gracefully
    (q st resp e : String) (hist : List ChatMsg) (db : String → Option String)
    (hv : _validate (_clean_sql resp) = some e)
    (s : AgentState) (hErr : s.error = none)
    (hNs : s.need_sql = true) (hNn : s.need_news = false) :
    (run_sql_agent q st hist (some resp) db).output = DB_ERROR_APOLOGY ∧
    (run_sql_agent q st hist (some resp) db).dbExecuted = false ∧
    (agent_sql_node (AgentOutcome.ok (run_sql_agent q st hist (some resp) db).output)
        s).error = none ∧
    (agent_sql_node (AgentOutcome.ok (run_sql_agent q st hist (some resp) db).output)
        s).sql_done = true ∧
    (agent_sql_node (AgentOutcome.ok (run_sql_agent q st hist (some resp) db).output)
        s).sql_result = some DB_ERROR_APOLOGY ∧
    decide_next (agent_sql_node
        (AgentOutcome.ok (run_sql_agent q st hist (some resp) db).output) s)
      = Route.synth := by
  have hbeq : (DB_ERROR_APOLOGY == "") = false := by decide
  have hout : (run_sql_agent q st hist (some resp) db).output = DB_ERROR_APOLOGY := by
    unfold run_sql_agent
    simp [hv, hbeq]
  have hdb : (run_sql_agent q st hist (some resp) db).dbExecuted = false := by
    unfold run_sql_agent
    simp [hv]
  refine ⟨hout, hdb, ?_, ?_, ?_, ?_⟩
  · simp [agent_sql_node, hErr]
  · simp [agent_sql_node]
  · simp [agent_sql_node, hout]
  · simp [decide_next, agent_sql_node, hErr, hNs, hNn, pyTruthyStrOpt]

/-- Witness for `sql_rejection_is_local_and_degrades_gracefully`: concrete
out-of-schema SQL in a concrete pure-SQL turn. -/
theorem sql_rejection_is_local_and_degrades_gracefully_witness :
    (run_sql_agent "close price of AAPL on 2025-06-11" "" []
        (some "SELECT * FROM users;") (fun _ => some "[]")).dbExecuted = false ∧
    decide_next (agent_sql_node
        (AgentOutcome.ok (run_sql_agent "close price of AAPL on 2025-06-11" "" []
          (some "SELECT * FROM users;") (fun _ => some "[]")).output) sqlTurnState)
      = Route.synth := by
  have h := sql_rejection_is_local_and_degrades_gracefully
    "close price of AAPL on 2025-06-11" "" "SELECT * FROM users;"
    "query must reference only stock_data" [] (fun _ => some "[]")
    (by decide) sqlTurnState rfl rfl rfl
  exact ⟨h.2.1, h.2.2.2.2.2⟩

/-- If the US-date regex matches nowhere in the remaining text (given the
word-character status of the preceding character), the substitution scan of
`_normalize_dates` returns the text unchanged. -/
theorem subScanAux_of_no_match : ∀ (fuel : Nat) (prevWord : Bool) (cs : List Char),
    hasUSDateAux prevWord cs = false → subScanAux prevWord cs fuel = cs
  | 0, _, cs, _ => by cases cs <;> rfl
  | _ + 1, _, [], _ => rfl
  | n + 1, prev, c :: rest, h => by
    unfold hasUSDateAux at h
    rw [Bool.or_eq_false_iff] at h
    obtain ⟨h1, h2⟩ := h
    unfold subScanAux
    cases prev with
    | true => simp [subScanAux_of_no_match n _ rest h2]
    | false =>
      cases hm : tryDateMatch (c :: rest) with
      | some v => simp [hm] at h1
      | none => simp [hm, subScanAux_of_no_match n _ rest h2]

/-- C10 (counterexample): `6/11/25` is an `M/D/YY` date (the slash-date regex
of the SQL adapter captures it), yet `_normalize_dates` leaves the text
completely unchanged — two-digit-year occurrences are never rewritten to ISO
form. -/
theorem two_digit_year_date_not_rewritten :
    findFirstSlash "close of AAPL on 6/11/25" = some ("6", "11", "25") ∧
    _normalize_dates "close of AAPL on 6/11/25" = "close of AAPL on 6/11/25" := by
  refine ⟨rfl, rfl⟩

/-- C10 (amended): the text-rewriting normalization recognizes only
`M/D/YYYY`-style dates whose year begins with `20` (slash or dash
separators), rewriting each to zero-padded ISO form and leaving all other
text untouched; ISO recognition and the two-digit-year rule (prefix `20`,
zero-pad month/day) exist only in the SQL adapter's `current_date`
extraction, which selects the first ISO match, else the first slash-date
match, without rewriting the text. -/
theorem date_normalization_characterization :
    (∀ (q st : String) (hist : List ChatMsg) (resp : Option String)
        (db : String → Option String) (iso : String),
      findFirstIso (⟨pyStrip q.data⟩ : String) = some iso →
        (run_sql_agent q st hist resp db).current_date = iso) ∧
    (∀ (q st : String) (hist : List ChatMsg) (resp : Option String)
        (db : String → Option String) (m d y : String),
      findFirstIso (⟨pyStrip q.data⟩ : String) = none →
      findFirstSlash (⟨pyStrip q.data⟩ : String) = some (m, d, y) →
        (run_sql_agent q st hist resp db).current_date
          = (if y.length == 2 then "20" ++ y else y) ++ "-"
              ++ pad2 (pyInt m) ++ "-" ++ pad2 (pyInt d)) ∧
    (∀ text : String, hasUSDate text = false → _normalize_dates text = text) ∧
    _normalize_dates "06/11/2025" = "2025-06-11" ∧
    _normalize_dates "on 6-9-2025 vs 12/31/2025" = "on 2025-06-09 vs 2025-12-31" := by
  refine ⟨?_, ?_, ?_, rfl, rfl⟩
  · intro q st hist resp db iso h
    unfold run_sql_agent
    simp [h]
  · intro q st hist resp db m d y h1 h2
    unfold run_sql_agent
    simp [h1, h2]
  · intro text h
    unfold hasUSDate at h
    unfold _normalize_dates
    rw [subScanAux_of_no_match _ _ _ h]

/-- Witness for `date_normalization_characterization` at concrete questions
and a date-free text. -/
theorem date_normalization_characterization_witness :
    (run_sql_agent "close on 2025-06-11" "" [] none (fun _ => none)).current_date
      = "2025-06-11" ∧
    (run_sql_agent "close on 6/11/25" "" [] none (fun _ => none)).current_date
      = (if ("25" : String).length == 2 then "20" ++ "25" else "25") ++ "-"
          ++ pad2 (pyInt "6") ++ "-" ++ pad2 (pyInt "11") ∧
    _normalize_dates "hello there" = "hello there" := by
  refine ⟨?_, ?_, ?_⟩
  · exact date_normalization_characterization.1 "close on 2025-06-11" "" [] none
      (fun _ => none) "2025-06-11" (by decide)
  · exact date_normalization_characterization.2.1 "close on 6/11/25" "" [] none
      (fun _ => none) "6" "11" "25" (by decide) (by decide)
  · exact date_normalization_characterization.2.2.1 "hello there" (by decide)

end StockAssistant

